import Mathlib

/-!
Verification of the record-page controller of the hotspot repository
(src/recordpage.cpp): process-snapshot polling, the process-table merge,
the recording-session controller, input validation, output-path
auto-correction, combo-box history, and the CPU capability probe.

The C++ code is shallowly embedded: Qt widget state becomes an explicit
state record, signal handlers become state-transition functions, and the
external collaborators (filesystem queries, KShell helpers, the config
store) become explicit function parameters collected in `Env`.
-/

/-- QString::isEmpty: a string is empty iff it equals the empty string. -/
def strIsEmpty (s : String) : Bool := s == ""

/-- QString::endsWith, modelled on the underlying character lists. -/
def strEndsWith (s suf : String) : Bool := suf.data.isSuffixOf s.data

theorem strIsEmpty_iff (s : String) : strIsEmpty s = true ↔ s = "" := by
  simp [strIsEmpty]

theorem strIsEmpty_eq_false_of_ne {s : String} (h : s ≠ "") : strIsEmpty s = false := by
  simp [strIsEmpty, h]

/-! ## Process records and the snapshot merge

`ProcData` is the per-process record of the process model (pid, name,
state).  `mergeProcesses` reconciles the current table with a fresh
snapshot.

Modelled from the spec: the merge algorithm lives in processmodel.cpp,
which is not part of the sources at hand; §3 of the specification defines
it: records whose processId exists in the current table are updated in
place (identity and relative order preserved), records with a new
processId are inserted, and current records absent from the snapshot are
removed. -/

structure ProcData where
  pid : Nat
  name : String
  state : String
deriving DecidableEq

/-- True when some record in `l` carries process id `n`. -/
def pidMem (l : List ProcData) (n : Nat) : Bool := l.any (fun p => p.pid == n)

/-- Update the mutable fields (name, state) of `p` from the snapshot
record with the same pid, leaving `p` untouched when the snapshot has
no such record. -/
def updateFrom (s : List ProcData) (p : ProcData) : ProcData :=
  match s.find? (fun q => q.pid == p.pid) with
  | some q => { p with name := q.name, state := q.state }
  | none => p

/-- Modelled from the spec: merge of the current table `t` with the fresh
snapshot `s` (§3 of the spec); surviving rows keep their relative order,
rows absent from `s` are dropped, new rows are inserted. -/
def mergeProcesses (t s : List ProcData) : List ProcData :=
  (t.filter (fun p => pidMem s p.pid)).map (updateFrom s)
    ++ s.filter (fun q => !pidMem t q.pid)

/-! ## Combo-box history (rememberCombobox) -/

/-- MAX_COMBO_ENTRIES from recordpage.cpp. -/
def MAX_COMBO_ENTRIES : Nat := 10

/-- rememberCombobox: remove the first occurrence of `value` from the
combo-box item list (findText/removeItem), insert `value` at the front,
and write the first `min MAX_COMBO_ENTRIES count` items to the config
store.  Returns (new item list, list written to the config). -/
def rememberCombobox (items : List String) (value : String) :
    List String × List String :=
  let pruned := items.erase value
  let items' := value :: pruned
  (items', items'.take MAX_COMBO_ENTRIES)

/-! ## CPU capability probe (isIntel) -/

/-- One Solid device as seen by isIntel: whether it is a processor and
which Intel instruction-set flags it reports. -/
structure SolidDevice where
  isProcessor : Bool
  intelMmx : Bool
  intelSse : Bool
  intelSse2 : Bool
  intelSse3 : Bool
  intelSsse3 : Bool
  intelSse4 : Bool
  intelSse41 : Bool
  intelSse42 : Bool
deriving DecidableEq

/-- isIntel from recordpage.cpp.  The C++ binds `device = list[0]`
before testing `list.empty()`; the unguarded element access is modelled
by `List.head?`, and `none` marks the out-of-bounds access that the C++
performs on an empty device list. -/
def isIntel (list : List SolidDevice) : Option Bool :=
  match list.head? with
  | none => none
  | some device =>
    if list.isEmpty || !device.isProcessor then some false
    else some (device.intelMmx || device.intelSse || device.intelSse2 ||
               device.intelSse3 || device.intelSsse3 || device.intelSse4 ||
               device.intelSse41 || device.intelSse42)

/-! ## The record-page widget state and its external collaborators -/

/-- RecordType from recordpage.h: the two entries of recordTypeComboBox. -/
inductive RecordType where
  | launchApplication
  | attachToProcess
deriving DecidableEq

/-- One entry of QItemSelectionModel::selectedIndexes() on the process
table view: its column and the PIDRole data of its row. -/
structure SelIndex where
  column : Nat
  pid : String
deriving DecidableEq

/-- External collaborators of the record page: filesystem queries
(QFileInfo), path helpers, KShell, QUrl::toLocalFile and the
per-application config reads.  All are opaque to the page and therefore
passed in as plain functions. -/
structure Env where
  fsExists : String → Bool
  fsIsFile : String → Bool
  fsIsDir : String → Bool
  fsIsWritable : String → Bool
  fsIsExecutable : String → Bool
  findExecutable : String → String
  absolutePath : String → String
  absoluteFilePath : String → String
  fiPath : String → String
  tildeExpand : String → String
  splitArgs : String → List String
  toLocalFile : String → String
  readAppWorkingDir : String → String
  readAppParams : String → String

/-- The widget state of RecordPage that the handlers read and write.
`mode` stands both for recordTypeComboBox's current data and for the
stacked widget's current page (the index-changed handler keeps the two
in sync).  The `config…` fields mirror the entries written to the
persisted config store. -/
structure RecordUI where
  mode : RecordType
  applicationNameText : String
  applicationUrlValid : Bool
  applicationParametersText : String
  workingDirectoryText : String
  workingDirectoryPlaceholder : String
  outputFileText : String
  errorText : String
  errorVisible : Bool
  startChecked : Bool
  startEnabled : Bool
  startIcon : String
  startLabel : String
  viewResultsEnabled : Bool
  recordTypeEnabled : Bool
  resultsFile : String
  windowTitle : String
  callGraphData : String
  eventTypeText : String
  eventTypeItems : List String
  applicationItems : List String
  selectedIndexes : List SelIndex
  perfResultsText : String
  perfResultsVisible : Bool
  recorderStopRequested : Bool
  configCallGraph : String
  configEventTypes : List String
  configApplications : List String
  appConfigWrites : List (String × String × String)
deriving DecidableEq

/-- updateStartRecordingButtonState: on the launch page the button needs
a valid application URL, on the attach page a non-empty selection, and in
both cases an empty error message. -/
def updateStartRecordingButtonState (st : RecordUI) : RecordUI :=
  let enabled :=
    (match st.mode with
     | RecordType.launchApplication => st.applicationUrlValid
     | RecordType.attachToProcess => !st.selectedIndexes.isEmpty)
    && strIsEmpty st.errorText
  { st with startEnabled := enabled }

/-- Common tail of the three validation handlers: set the error widget's
visibility from its text, then refresh the start button. -/
def finishValidation (st : RecordUI) : RecordUI :=
  updateStartRecordingButtonState { st with errorVisible := !strIsEmpty st.errorText }

/-- onWorkingDirectoryNameChanged: validate the working directory and
surface the first failing check as the error message. -/
def onWorkingDirectoryNameChanged (env : Env) (folderPath : String) (st : RecordUI) :
    RecordUI :=
  let folder := env.toLocalFile st.workingDirectoryText
  let msg :=
    if !env.fsExists folder then
      "Working directory folder cannot be found: " ++ folderPath
    else if !env.fsIsDir folder then
      "Working directory folder is not valid: " ++ folderPath
    else if !env.fsIsWritable folder then
      "Working directory folder is not writable: " ++ folderPath
    else ""
  finishValidation { st with errorText := msg }

/-- KUrlRequester::setText on the working-directory requester: the
textChanged signal fires the handler when the text actually changes. -/
def setWorkingDirectoryText (env : Env) (t : String) (st : RecordUI) : RecordUI :=
  if t = st.workingDirectoryText then st
  else onWorkingDirectoryNameChanged env t { st with workingDirectoryText := t }

/-- Branch body of onApplicationNameChanged, before the common
visibility/button tail.  The success branch restores the remembered
working directory (cascading into the working-directory handler) and
parameters, sets the placeholder to the executable's directory and
clears the error text. -/
def onApplicationNameChangedBody (env : Env) (filePath : String) (st : RecordUI) :
    RecordUI :=
  let app := env.findExecutable (env.tildeExpand filePath)
  if !env.fsExists app then
    { st with errorText := "Application file cannot be found: " ++ filePath }
  else if !env.fsIsFile app then
    { st with errorText := "Application file is not valid: " ++ filePath }
  else if !env.fsIsExecutable app then
    { st with errorText := "Application file is not executable: " ++ filePath }
  else
    let st1 := setWorkingDirectoryText env (env.readAppWorkingDir filePath) st
    let st2 := { st1 with applicationParametersText := env.readAppParams filePath }
    let st3 := { st2 with workingDirectoryPlaceholder := env.fiPath app }
    { st3 with errorText := "" }

/-- onApplicationNameChanged: validate the application path. -/
def onApplicationNameChanged (env : Env) (filePath : String) (st : RecordUI) :
    RecordUI :=
  finishValidation (onApplicationNameChangedBody env filePath st)

/-- onOutputFileNameChanged: validate the directory of the output file
and the .data extension.  The C++ handler ignores its argument. -/
def onOutputFileNameChanged (env : Env) (st : RecordUI) : RecordUI :=
  let file := env.toLocalFile st.outputFileText
  let folder := env.absolutePath file
  let msg :=
    if !env.fsExists folder then
      "Output file directory folder cannot be found: " ++ env.fiPath folder
    else if !env.fsIsDir folder then
      "Output file directory folder is not valid: " ++ env.fiPath folder
    else if !env.fsIsWritable folder then
      "Output file directory folder is not writable: " ++ env.fiPath folder
    else if !strEndsWith (env.absoluteFilePath file) ".data" then
      "Output file must end with .data"
    else ""
  finishValidation { st with errorText := msg }

/-- KUrlRequester::setText on the output-file requester; textChanged
cascades into the output-file validation handler. -/
def setOutputFileText (env : Env) (t : String) (st : RecordUI) : RecordUI :=
  if t = st.outputFileText then st
  else onOutputFileNameChanged env { st with outputFileText := t }

/-- onOutputFileNameSelected: append the .data extension when the
committed path lacks it. -/
def onOutputFileNameSelected (env : Env) (filePath : String) (st : RecordUI) :
    RecordUI :=
  if strEndsWith filePath ".data" then st
  else setOutputFileText env (filePath ++ ".data") st

/-- onOutputFileUrlChanged: delegate to onOutputFileNameSelected on the
URL's local file path. -/
def onOutputFileUrlChanged (env : Env) (fileUrl : String) (st : RecordUI) : RecordUI :=
  onOutputFileNameSelected env (env.toLocalFile fileUrl) st

/-! ## Recording-session controller -/

/-- The invocation handed to PerfRecord::record: the option list, the
output path and the target (launch spec or attach pid list). -/
inductive RecordTarget where
  | launch (app : String) (args : List String) (workingDir : String)
  | attach (pids : List String)
deriving DecidableEq

structure RecordCall where
  options : List String
  outputPath : String
  target : RecordTarget
deriving DecidableEq

/-- Process ids handed to the recorder in attach mode: the PIDRole data
of the column-0 entries of the selection. -/
def selectedRowPids (sel : List SelIndex) : List String :=
  (sel.filter (fun i => i.column == 0)).map SelIndex.pid

/-- showRecordPage: reset the results file, hide the error and the perf
output widgets, disable the results-viewer button. -/
def showRecordPage (st : RecordUI) : RecordUI :=
  { st with windowTitle := "Hotspot - Record",
            resultsFile := "",
            errorVisible := false,
            perfResultsText := "",
            perfResultsVisible := false,
            viewResultsEnabled := false }

/-- onStartRecordingButtonClicked, the toggled-signal handler.  When
checked it builds the perf option list, remembers the history entries,
and issues the PerfRecord::record call for the current mode; when
unchecked it requests the recording to stop.  Returns the new widget
state and the record call, if one was issued.

The combo-box mutations done by rememberCombobox/rememberApplication can
re-trigger onApplicationNameChanged through the combo box's line edit;
that cascade only rewrites presentation fields already captured in the
locals below and is not tracked here. -/
def onStartRecordingButtonClicked (env : Env) (checked : Bool) (st : RecordUI) :
    RecordUI × Option RecordCall :=
  if checked then
    let st0 := showRecordPage st
    let st1 := { st0 with startIcon := "media-playback-stop",
                          startLabel := "Stop Recording" }
    let callGraphOption := st1.callGraphData
    let st2 := { st1 with configCallGraph := callGraphOption }
    let opts0 : List String :=
      if strIsEmpty callGraphOption then [] else ["--call-graph", callGraphOption]
    let eventType := st2.eventTypeText
    let rememberEv := rememberCombobox st2.eventTypeItems eventType
    let st3 := { st2 with eventTypeItems := rememberEv.1,
                          configEventTypes := rememberEv.2 }
    let perfOptions := opts0 ++ (if strIsEmpty eventType then [] else ["--event", eventType])
    if st3.mode = RecordType.launchApplication then
      let applicationName := env.tildeExpand st3.applicationNameText
      let appParameters := st3.applicationParametersText
      let workingDir :=
        if strIsEmpty st3.workingDirectoryText then st3.workingDirectoryPlaceholder
        else st3.workingDirectoryText
      let rememberApp := rememberCombobox st3.applicationItems applicationName
      let st4 := { st3 with applicationItems := rememberApp.1,
                            configApplications := rememberApp.2,
                            appConfigWrites :=
                              (applicationName, appParameters, workingDir)
                                :: st3.appConfigWrites }
      ({ st4 with recordTypeEnabled := false },
       some { options := perfOptions,
              outputPath := env.toLocalFile st3.outputFileText,
              target := RecordTarget.launch applicationName
                          (env.splitArgs appParameters) workingDir })
    else
      let pids := selectedRowPids st3.selectedIndexes
      ({ st3 with recordTypeEnabled := false },
       some { options := perfOptions,
              outputPath := env.toLocalFile st3.outputFileText,
              target := RecordTarget.attach pids })
  else
    ({ st with startIcon := "media-playback-start",
               startLabel := "Start Recording",
               recorderStopRequested := true,
               recordTypeEnabled := true }, none)

/-- QPushButton::setChecked on the start button: when the checked state
actually changes, the toggled signal runs onStartRecordingButtonClicked. -/
def setStartChecked (env : Env) (b : Bool) (st : RecordUI) : RecordUI :=
  if st.startChecked = b then st
  else (onStartRecordingButtonClicked env b { st with startChecked := b }).1

/-- Handler connected to PerfRecord::recordingFinished. -/
def onRecordingFinished (env : Env) (fileLocation : String) (st : RecordUI) : RecordUI :=
  let st1 := setStartChecked env false st
  { st1 with errorVisible := false,
             resultsFile := fileLocation,
             viewResultsEnabled := true,
             recordTypeEnabled := true }

/-- Handler connected to PerfRecord::recordingFailed. -/
def onRecordingFailed (env : Env) (errorMessage : String) (st : RecordUI) : RecordUI :=
  let st1 := setStartChecked env false st
  { st1 with errorText := errorMessage,
             errorVisible := true,
             viewResultsEnabled := false,
             recordTypeEnabled := true }

/-- Handler connected to PerfRecord::recordingOutput. -/
def onRecordingOutput (outputMessage : String) (st : RecordUI) : RecordUI :=
  { st with perfResultsText := st.perfResultsText ++ outputMessage,
            perfResultsVisible := true }

/-! ## The attach-mode polling loop

The loop is driven by four kinds of events: the record-type combo box
changing its entry, the watched enumeration future finishing (the
QFutureWatcher's finished signal), a pending QTimer::singleShot firing,
and an unwatched (superseded) enumeration call finishing. -/

/-- Delay of the QTimer::singleShot rearming the poll, in milliseconds. -/
def singleShotDelay : Nat := 1000

/-- State of the polling loop: the shown page, the number of
enumeration calls currently running, the pending single-shot timers
(each with its delay) and the process table. -/
structure PollState where
  mode : RecordType
  inflight : Nat
  timers : List Nat
  table : List ProcData
deriving DecidableEq

inductive PollEvent where
  /-- The user picks an entry of recordTypeComboBox. -/
  | selectMode (m : RecordType)
  /-- The watched enumeration future finishes with snapshot `s`;
  the QFutureWatcher delivers updateProcessesFinished. -/
  | resultArrives (s : List ProcData)
  /-- A pending QTimer::singleShot fires updateProcesses. -/
  | timerFires
  /-- An enumeration call superseded by a later setFuture finishes;
  nothing is delivered for it. -/
  | staleResult
deriving DecidableEq

/-- Initial state: the launch page is shown, nothing runs. -/
def pollInit : PollState :=
  { mode := RecordType.launchApplication, inflight := 0, timers := [], table := [] }

/-- One step of the polling loop.  Selecting the attach entry runs
updateProcesses (a new enumeration starts); a finished watched future
runs updateProcessesFinished, which merges the snapshot and, only while
the attach page is shown, arms a 1000ms single shot; a firing single
shot runs updateProcesses unconditionally. -/
def pollStep (st : PollState) (e : PollEvent) : PollState :=
  match e with
  | PollEvent.selectMode m =>
    if m = st.mode then st
    else
      match m with
      | RecordType.launchApplication => { st with mode := m }
      | RecordType.attachToProcess => { st with mode := m, inflight := st.inflight + 1 }
  | PollEvent.resultArrives s =>
    if st.inflight = 0 then st
    else
      let st1 := { st with inflight := st.inflight - 1,
                           table := mergeProcesses st.table s }
      if st1.mode = RecordType.attachToProcess then
        { st1 with timers := singleShotDelay :: st1.timers }
      else st1
  | PollEvent.timerFires =>
    match st.timers with
    | [] => st
    | _ :: rest => { st with timers := rest, inflight := st.inflight + 1 }
  | PollEvent.staleResult =>
    if 2 ≤ st.inflight then { st with inflight := st.inflight - 1 } else st

/-- Run the polling loop from its initial state. -/
def pollRun (events : List PollEvent) : PollState :=
  events.foldl pollStep pollInit

/-- What the user observes of the process table: its contents while the
attach page is shown, nothing otherwise. -/
def visibleTable (st : PollState) : Option (List ProcData) :=
  if st.mode = RecordType.attachToProcess then some st.table else none

/-- Number of enumeration calls running plus pending single-shot timers. -/
def pollCounters (st : PollState) : Nat := st.inflight + st.timers.length

/-- True for the combo-box event that switches into attach mode. -/
def isAttachSelect : PollEvent → Bool
  | PollEvent.selectMode RecordType.attachToProcess => true
  | _ => false

/-- Number of switch-into-attach-mode events in an event list. -/
def attachSelects (events : List PollEvent) : Nat :=
  (events.filter isAttachSelect).length

/-! ## Concrete states used by the witnesses -/

/-- An environment where every filesystem check succeeds and the path
helpers are trivial. -/
def env0 : Env :=
  { fsExists := fun _ => true
    fsIsFile := fun _ => true
    fsIsDir := fun _ => true
    fsIsWritable := fun _ => true
    fsIsExecutable := fun _ => true
    findExecutable := fun s => s
    absolutePath := fun _ => "/tmp"
    absoluteFilePath := fun s => s
    fiPath := fun _ => "/tmp"
    tildeExpand := fun s => s
    splitArgs := fun _ => []
    toLocalFile := fun s => s
    readAppWorkingDir := fun _ => ""
    readAppParams := fun _ => "" }

/-- The widget state right after the RecordPage constructor ran. -/
def ui0 : RecordUI :=
  { mode := RecordType.launchApplication
    applicationNameText := ""
    applicationUrlValid := false
    applicationParametersText := ""
    workingDirectoryText := ""
    workingDirectoryPlaceholder := ""
    outputFileText := "/tmp/perf.data"
    errorText := ""
    errorVisible := false
    startChecked := false
    startEnabled := false
    startIcon := "media-playback-start"
    startLabel := "Start Recording"
    viewResultsEnabled := false
    recordTypeEnabled := true
    resultsFile := ""
    windowTitle := "Hotspot - Record"
    callGraphData := "dwarf"
    eventTypeText := ""
    eventTypeItems := []
    applicationItems := []
    selectedIndexes := []
    perfResultsText := ""
    perfResultsVisible := false
    recorderStopRequested := false
    configCallGraph := ""
    configEventTypes := []
    configApplications := []
    appConfigWrites := [] }

/-! ## Supporting lemmas -/

theorem updateStartButton_errorText (st : RecordUI) :
    (updateStartRecordingButtonState st).errorText = st.errorText := rfl

theorem updateStartButton_outputFileText (st : RecordUI) :
    (updateStartRecordingButtonState st).outputFileText = st.outputFileText := rfl

theorem finishValidation_errorText (st : RecordUI) :
    (finishValidation st).errorText = st.errorText := rfl

theorem finishValidation_disables (st : RecordUI)
    (h : (finishValidation st).errorText ≠ "") :
    (finishValidation st).startEnabled = false := by
  rw [finishValidation_errorText] at h
  show (updateStartRecordingButtonState _).startEnabled = false
  simp only [updateStartRecordingButtonState, strIsEmpty_eq_false_of_ne h,
    Bool.and_false]

theorem onOutputFileNameChanged_outputFileText (env : Env) (st : RecordUI) :
    (onOutputFileNameChanged env st).outputFileText = st.outputFileText := rfl

/-- C7: when the committed output path lacks the .data extension the
stored path becomes the committed path with .data appended; a path that
already ends in .data is left alone; the urlSelected handler behaves as
the returnPressed handler on the URL's local path. -/
theorem C7_output_path_autocorrect (env : Env) (p u : String) (st : RecordUI) :
    (strEndsWith p ".data" = true → onOutputFileNameSelected env p st = st)
    ∧ (strEndsWith p ".data" = false →
        (onOutputFileNameSelected env p st).outputFileText = p ++ ".data")
    ∧ onOutputFileUrlChanged env u st
        = onOutputFileNameSelected env (env.toLocalFile u) st := by
  refine ⟨fun h => ?_, fun h => ?_, rfl⟩
  · simp [onOutputFileNameSelected, h]
  · simp only [onOutputFileNameSelected, h, Bool.false_eq_true, if_false,
      setOutputFileText]
    split
    · next heq => exact heq.symm
    · rw [onOutputFileNameChanged_outputFileText]

/-- Witness for C7 at a concrete path lacking the extension. -/
theorem C7_output_path_autocorrect_witness :
    strEndsWith "/tmp/out" ".data" = false
    ∧ (onOutputFileNameSelected env0 "/tmp/out" ui0).outputFileText
        = "/tmp/out" ++ ".data" :=
  ⟨by decide, (C7_output_path_autocorrect env0 "/tmp/out" "u" ui0).2.1 (by decide)⟩

/-- C8: rememberCombobox puts the new value at the front, removes its
earlier occurrence so that the item list stays duplicate-free, and the
list written to the config store is the first at most 10 items of the
combo box, most recent first. -/
theorem C8_rememberCombobox_history (items : List String) (value : String)
    (h : items.Nodup) :
    (rememberCombobox items value).1.head? = some value
    ∧ (rememberCombobox items value).1.Nodup
    ∧ value ∉ (rememberCombobox items value).1.tail
    ∧ (rememberCombobox items value).2 = (rememberCombobox items value).1.take 10
    ∧ (rememberCombobox items value).2.length ≤ 10 := by
  refine ⟨rfl, ?_, ?_, rfl, ?_⟩
  · exact List.nodup_cons.mpr ⟨h.not_mem_erase, h.erase value⟩
  · exact h.not_mem_erase
  · simp [rememberCombobox, List.length_take, MAX_COMBO_ENTRIES]

/-- Witness for C8 on a concrete duplicate-free history. -/
theorem C8_rememberCombobox_history_witness :
    (["b", "a"] : List String).Nodup
    ∧ ((rememberCombobox ["b", "a"] "a").1.head? = some "a"
       ∧ (rememberCombobox ["b", "a"] "a").1.Nodup
       ∧ "a" ∉ (rememberCombobox ["b", "a"] "a").1.tail
       ∧ (rememberCombobox ["b", "a"] "a").2
           = (rememberCombobox ["b", "a"] "a").1.take 10
       ∧ (rememberCombobox ["b", "a"] "a").2.length ≤ 10) :=
  ⟨by decide, C8_rememberCombobox_history ["b", "a"] "a" (by decide)⟩

/-- C10: on an empty device list isIntel performs the unguarded
first-element access (modelled as `none`) instead of returning a
boolean; on any non-empty list it returns a boolean.  The emptiness
check on the very next source line shows the guard was intended. -/
theorem C10_isIntel_oob_on_empty :
    isIntel [] = none ∧ ∀ d l, (isIntel (d :: l)).isSome = true := by
  refine ⟨rfl, fun d l => ?_⟩
  simp only [isIntel, List.head?]
  split <;> rfl

/-- C4: delivering recordingFailed with a message unchecks the start
button (the toggled cascade runs the stop branch), re-enables the mode
selector, displays the message, and disables the results viewer. -/
theorem C4_recording_failed_returns_to_idle (env : Env) (msg : String)
    (st : RecordUI) (h : st.startChecked = true) :
    (onRecordingFailed env msg st).startChecked = false
    ∧ (onRecordingFailed env msg st).recordTypeEnabled = true
    ∧ (onRecordingFailed env msg st).errorText = msg
    ∧ (onRecordingFailed env msg st).errorVisible = true
    ∧ (onRecordingFailed env msg st).viewResultsEnabled = false := by
  refine ⟨?_, rfl, rfl, rfl, rfl⟩
  show (setStartChecked env false st).startChecked = false
  simp [setStartChecked, h, onStartRecordingButtonClicked]

/-- Witness for C4 on a concrete recording-in-progress state. -/
theorem C4_recording_failed_returns_to_idle_witness :
    ({ ui0 with startChecked := true } : RecordUI).startChecked = true
    ∧ ((onRecordingFailed env0 "perf exited" { ui0 with startChecked := true }).startChecked = false
       ∧ (onRecordingFailed env0 "perf exited" { ui0 with startChecked := true }).recordTypeEnabled = true
       ∧ (onRecordingFailed env0 "perf exited" { ui0 with startChecked := true }).errorText = "perf exited"
       ∧ (onRecordingFailed env0 "perf exited" { ui0 with startChecked := true }).errorVisible = true
       ∧ (onRecordingFailed env0 "perf exited" { ui0 with startChecked := true }).viewResultsEnabled = false) :=
  ⟨rfl, C4_recording_failed_returns_to_idle env0 "perf exited"
          { ui0 with startChecked := true } rfl⟩

/-- C5: after any of the three validation handlers runs, a non-empty
error message forces the start-recording button to be disabled. -/
theorem C5_validation_error_disables_start (env : Env) (st : RecordUI) :
    (∀ p, (onApplicationNameChanged env p st).errorText ≠ "" →
       (onApplicationNameChanged env p st).startEnabled = false)
    ∧ (∀ p, (onWorkingDirectoryNameChanged env p st).errorText ≠ "" →
       (onWorkingDirectoryNameChanged env p st).startEnabled = false)
    ∧ ((onOutputFileNameChanged env st).errorText ≠ "" →
       (onOutputFileNameChanged env st).startEnabled = false) :=
  ⟨fun _ h => finishValidation_disables _ h,
   fun _ h => finishValidation_disables _ h,
   fun h => finishValidation_disables _ h⟩

/-- An environment where no path exists, driving every validation
handler into its first error branch. -/
def env5 : Env := { env0 with fsExists := fun _ => false }

/-- Witness for C5: a missing working directory leaves a non-empty
message and a disabled start button. -/
theorem C5_validation_error_disables_start_witness :
    (onWorkingDirectoryNameChanged env5 "w" ui0).errorText ≠ ""
    ∧ (onWorkingDirectoryNameChanged env5 "w" ui0).startEnabled = false :=
  ⟨by decide, (C5_validation_error_disables_start env5 ui0).2.1 "w" (by decide)⟩

/-! ## Merge idempotence (C9) -/

theorem updateFrom_pid (s : List ProcData) (p : ProcData) :
    (updateFrom s p).pid = p.pid := by
  unfold updateFrom
  split <;> rfl

theorem pidMem_of_mem {s : List ProcData} {q : ProcData} (h : q ∈ s) :
    pidMem s q.pid = true :=
  List.any_eq_true.mpr ⟨q, h, by simp⟩

theorem mem_merge_pidMem {t s : List ProcData} {x : ProcData}
    (h : x ∈ mergeProcesses t s) : pidMem s x.pid = true := by
  rcases List.mem_append.mp h with h1 | h2
  · obtain ⟨p, hp, rfl⟩ := List.mem_map.mp h1
    rw [updateFrom_pid]
    exact (List.mem_filter.mp hp).2
  · exact pidMem_of_mem (List.mem_filter.mp h2).1

theorem updateFrom_idem (s : List ProcData) (p : ProcData) :
    updateFrom s (updateFrom s p) = updateFrom s p := by
  cases hf : s.find? (fun q => q.pid == p.pid) with
  | none =>
    have h1 : updateFrom s p = p := by simp [updateFrom, hf]
    rw [h1]
    exact h1
  | some q =>
    have h1 : updateFrom s p = { p with name := q.name, state := q.state } := by
      simp [updateFrom, hf]
    rw [h1]
    simp [updateFrom, hf]

theorem find?_self_of_nodup {s : List ProcData}
    (h : (s.map ProcData.pid).Nodup) {q : ProcData} (hq : q ∈ s) :
    s.find? (fun r => r.pid == q.pid) = some q := by
  induction s with
  | nil => cases hq
  | cons a rest ih =>
    rw [List.map_cons, List.nodup_cons] at h
    cases hpq : (a.pid == q.pid) with
    | true =>
      have hap : a.pid = q.pid := by simpa using hpq
      have haq : a = q := by
        rcases List.mem_cons.mp hq with rfl | hmem
        · rfl
        · exact absurd (hap ▸ List.mem_map_of_mem ProcData.pid hmem) h.1
      simp [List.find?, hpq, haq]
    | false =>
      have hne : q ≠ a := by
        rintro rfl
        simp at hpq
      have hmem : q ∈ rest := (List.mem_cons.mp hq).resolve_left hne
      simp [List.find?, hpq, ih h.2 hmem]

theorem updateFrom_mem_self {s : List ProcData}
    (h : (s.map ProcData.pid).Nodup) {q : ProcData} (hq : q ∈ s) :
    updateFrom s q = q := by
  simp [updateFrom, find?_self_of_nodup h hq]

theorem listMapSelf {α : Type} (f : α → α) :
    ∀ l : List α, (∀ x ∈ l, f x = x) → l.map f = l
  | [], _ => rfl
  | a :: l, h => by
    rw [List.map_cons, h a (List.mem_cons_self a l),
      listMapSelf f l (fun x hx => h x (List.mem_cons_of_mem a hx))]

theorem mem_pid_merge {t s : List ProcData} {q : ProcData} (hq : q ∈ s) :
    pidMem (mergeProcesses t s) q.pid = true := by
  by_cases hp : pidMem t q.pid = true
  · obtain ⟨p, hpt, hpq⟩ := List.any_eq_true.mp hp
    have hpq : p.pid = q.pid := by simpa using hpq
    have hfil : p ∈ t.filter (fun r => pidMem s r.pid) :=
      List.mem_filter.mpr ⟨hpt, by rw [hpq]; exact pidMem_of_mem hq⟩
    have hmem : updateFrom s p ∈ mergeProcesses t s :=
      List.mem_append.mpr (Or.inl (List.mem_map_of_mem (updateFrom s) hfil))
    exact List.any_eq_true.mpr ⟨updateFrom s p, hmem, by simp [updateFrom_pid, hpq]⟩
  · have hmem : q ∈ mergeProcesses t s :=
      List.mem_append.mpr (Or.inr (List.mem_filter.mpr
        ⟨hq, by simp [Bool.not_eq_true] at hp ⊢; exact hp⟩))
    exact List.any_eq_true.mpr ⟨q, hmem, by simp⟩

/-- C9: mergeProcesses is idempotent: merging the same snapshot twice,
with no other mutation in between, gives the table of a single merge.
The hypothesis is §3 of the spec: process ids are unique within one
snapshot. -/
theorem C9_mergeProcesses_idempotent (t s : List ProcData)
    (h : (s.map ProcData.pid).Nodup) :
    mergeProcesses (mergeProcesses t s) s = mergeProcesses t s := by
  have h1 : (mergeProcesses t s).filter (fun p => pidMem s p.pid) = mergeProcesses t s :=
    List.filter_eq_self.mpr (fun x hx => mem_merge_pidMem hx)
  have h2 : (mergeProcesses t s).map (updateFrom s) = mergeProcesses t s := by
    refine listMapSelf (updateFrom s) _ (fun x hx => ?_)
    rcases List.mem_append.mp hx with hl | hr
    · obtain ⟨p, _, rfl⟩ := List.mem_map.mp hl
      exact updateFrom_idem s p
    · exact updateFrom_mem_self h (List.mem_filter.mp hr).1
  have h3 : s.filter (fun q => !pidMem (mergeProcesses t s) q.pid) = [] :=
    List.filter_eq_nil_iff.mpr (fun q hq => by simp [mem_pid_merge hq])
  show ((mergeProcesses t s).filter (fun p => pidMem s p.pid)).map (updateFrom s)
        ++ s.filter (fun q => !pidMem (mergeProcesses t s) q.pid)
      = mergeProcesses t s
  rw [h1, h2, h3, List.append_nil]

/-- Witness for C9 on a concrete table and duplicate-free snapshot. -/
theorem C9_mergeProcesses_idempotent_witness :
    (([⟨1, "bash", "S"⟩, ⟨3, "perf", "R"⟩] : List ProcData).map ProcData.pid).Nodup
    ∧ mergeProcesses
        (mergeProcesses [⟨1, "init", "R"⟩, ⟨2, "gone", "Z"⟩]
          [⟨1, "bash", "S"⟩, ⟨3, "perf", "R"⟩])
        [⟨1, "bash", "S"⟩, ⟨3, "perf", "R"⟩]
      = mergeProcesses [⟨1, "init", "R"⟩, ⟨2, "gone", "Z"⟩]
          [⟨1, "bash", "S"⟩, ⟨3, "perf", "R"⟩] :=
  ⟨by decide,
   C9_mergeProcesses_idempotent [⟨1, "init", "R"⟩, ⟨2, "gone", "Z"⟩]
     [⟨1, "bash", "S"⟩, ⟨3, "perf", "R"⟩] (by decide)⟩

/-! ## The record invocation (C6) -/

/-- The list `l` contains `a` immediately followed by `b`. -/
def containsPair (l : List String) (a b : String) : Prop :=
  ∃ l1 l2, l = l1 ++ a :: b :: l2

theorem containsPair_nil (a b : String) : ¬ containsPair [] a b := by
  rintro ⟨l1, l2, h⟩
  cases l1 <;> simp at h

theorem containsPair_two {x y a b : String} :
    containsPair [x, y] a b ↔ x = a ∧ y = b := by
  constructor
  · rintro ⟨l1, l2, h⟩
    rcases l1 with _ | ⟨c, _ | ⟨d, l1⟩⟩ <;> simp_all
  · rintro ⟨rfl, rfl⟩
    exact ⟨[], [], rfl⟩

theorem containsPair_four {x y z w a b : String} :
    containsPair [x, y, z, w] a b ↔
      (x = a ∧ y = b) ∨ (y = a ∧ z = b) ∨ (z = a ∧ w = b) := by
  constructor
  · rintro ⟨l1, l2, h⟩
    rcases l1 with _ | ⟨c1, _ | ⟨c2, _ | ⟨c3, _ | ⟨c4, l1⟩⟩⟩⟩ <;> simp_all
  · rintro (⟨rfl, rfl⟩ | ⟨rfl, rfl⟩ | ⟨rfl, rfl⟩)
    · exact ⟨[], [z, w], rfl⟩
    · exact ⟨[x], [w], rfl⟩
    · exact ⟨[x, y], [], rfl⟩

/-- The perf option list built by onStartRecordingButtonClicked. -/
def perfOptionsOf (cg et : String) : List String :=
  (if strIsEmpty cg then [] else ["--call-graph", cg])
    ++ (if strIsEmpty et then [] else ["--event", et])

theorem perfOptionsOf_callGraph (cg et : String) :
    containsPair (perfOptionsOf cg et) "--call-graph" cg ↔ cg ≠ "" := by
  by_cases hcg : cg = "" <;> by_cases het : et = ""
  · rw [show perfOptionsOf cg et = [] by simp [perfOptionsOf, hcg, het, strIsEmpty]]
    exact iff_of_false (containsPair_nil _ _) (by simp [hcg])
  · rw [show perfOptionsOf cg et = ["--event", et] by
      simp [perfOptionsOf, hcg, het, strIsEmpty]]
    refine iff_of_false (fun hc => ?_) (by simp [hcg])
    obtain ⟨h1, _⟩ := containsPair_two.mp hc
    exact absurd h1 (by decide)
  · rw [show perfOptionsOf cg et = ["--call-graph", cg] by
      simp [perfOptionsOf, het, hcg, strIsEmpty]]
    exact iff_of_true ⟨[], [], rfl⟩ hcg
  · rw [show perfOptionsOf cg et = ["--call-graph", cg, "--event", et] by
      simp [perfOptionsOf, hcg, het, strIsEmpty]]
    exact iff_of_true ⟨[], ["--event", et], rfl⟩ hcg

theorem perfOptionsOf_event (cg et : String) :
    containsPair (perfOptionsOf cg et) "--event" et ↔ et ≠ "" := by
  by_cases hcg : cg = "" <;> by_cases het : et = ""
  · rw [show perfOptionsOf cg et = [] by simp [perfOptionsOf, hcg, het, strIsEmpty]]
    exact iff_of_false (containsPair_nil _ _) (by simp [het])
  · rw [show perfOptionsOf cg et = ["--event", et] by
      simp [perfOptionsOf, hcg, het, strIsEmpty]]
    exact iff_of_true ⟨[], [], rfl⟩ het
  · rw [show perfOptionsOf cg et = ["--call-graph", cg] by
      simp [perfOptionsOf, het, hcg, strIsEmpty]]
    refine iff_of_false (fun hc => ?_) (by simp [het])
    obtain ⟨h1, _⟩ := containsPair_two.mp hc
    exact absurd h1 (by decide)
  · rw [show perfOptionsOf cg et = ["--call-graph", cg, "--event", et] by
      simp [perfOptionsOf, hcg, het, strIsEmpty]]
    exact iff_of_true ⟨["--call-graph", cg], [], rfl⟩ het

theorem startClick_launch_shape (env : Env) (st : RecordUI)
    (hm : st.mode = RecordType.launchApplication) :
    (onStartRecordingButtonClicked env true st).2 =
      some { options := perfOptionsOf st.callGraphData st.eventTypeText
             outputPath := env.toLocalFile st.outputFileText
             target := RecordTarget.launch (env.tildeExpand st.applicationNameText)
                         (env.splitArgs st.applicationParametersText)
                         (if strIsEmpty st.workingDirectoryText then
                            st.workingDirectoryPlaceholder
                          else st.workingDirectoryText) } := by
  simp [onStartRecordingButtonClicked, hm, showRecordPage, perfOptionsOf]

theorem startClick_attach_shape (env : Env) (st : RecordUI)
    (hm : st.mode = RecordType.attachToProcess) :
    (onStartRecordingButtonClicked env true st).2 =
      some { options := perfOptionsOf st.callGraphData st.eventTypeText
             outputPath := env.toLocalFile st.outputFileText
             target := RecordTarget.attach (selectedRowPids st.selectedIndexes) } := by
  simp [onStartRecordingButtonClicked, hm, showRecordPage, perfOptionsOf]

theorem onAppNameChanged_placeholder (env : Env) (p : String) (st : RecordUI)
    (h1 : env.fsExists (env.findExecutable (env.tildeExpand p)) = true)
    (h2 : env.fsIsFile (env.findExecutable (env.tildeExpand p)) = true)
    (h3 : env.fsIsExecutable (env.findExecutable (env.tildeExpand p)) = true) :
    (onApplicationNameChanged env p st).workingDirectoryPlaceholder
      = env.fiPath (env.findExecutable (env.tildeExpand p)) := by
  unfold onApplicationNameChanged
  rw [show ∀ s : RecordUI, (finishValidation s).workingDirectoryPlaceholder
        = s.workingDirectoryPlaceholder from fun _ => rfl]
  unfold onApplicationNameChangedBody
  simp [h1, h2, h3]

/-- C6: clicking start issues exactly one record call; its option list
contains "--call-graph" followed by the unwind method exactly when the
method string is non-empty and "--event" followed by the event type
exactly when that string is non-empty; the call carries the output
path; in launch mode the target is the tilde-expanded executable, the
shell-split arguments and the working directory (the placeholder - the
executable's directory, as the last conjunct shows - when the field is
empty); in attach mode the target is exactly the pids of the selected
rows. -/
theorem C6_record_invocation (env : Env) (st : RecordUI) :
    ∃ call, (onStartRecordingButtonClicked env true st).2 = some call
      ∧ (containsPair call.options "--call-graph" st.callGraphData
          ↔ st.callGraphData ≠ "")
      ∧ (containsPair call.options "--event" st.eventTypeText
          ↔ st.eventTypeText ≠ "")
      ∧ call.outputPath = env.toLocalFile st.outputFileText
      ∧ (st.mode = RecordType.launchApplication →
          call.target = RecordTarget.launch (env.tildeExpand st.applicationNameText)
            (env.splitArgs st.applicationParametersText)
            (if st.workingDirectoryText = "" then st.workingDirectoryPlaceholder
             else st.workingDirectoryText))
      ∧ (st.mode = RecordType.attachToProcess →
          call.target = RecordTarget.attach (selectedRowPids st.selectedIndexes))
      ∧ (∀ p, env.fsExists (env.findExecutable (env.tildeExpand p)) = true →
           env.fsIsFile (env.findExecutable (env.tildeExpand p)) = true →
           env.fsIsExecutable (env.findExecutable (env.tildeExpand p)) = true →
           (onApplicationNameChanged env p st).workingDirectoryPlaceholder
             = env.fiPath (env.findExecutable (env.tildeExpand p))) := by
  cases hm : st.mode with
  | launchApplication =>
    refine ⟨_, startClick_launch_shape env st hm, ?_, ?_, rfl, fun _ => ?_, fun hat => ?_,
            fun p => onAppNameChanged_placeholder env p st⟩
    · exact perfOptionsOf_callGraph st.callGraphData st.eventTypeText
    · exact perfOptionsOf_event st.callGraphData st.eventTypeText
    · by_cases hwd : st.workingDirectoryText = "" <;>
        simp [hwd, strIsEmpty]
    · cases hat
  | attachToProcess =>
    refine ⟨_, startClick_attach_shape env st hm, ?_, ?_, rfl, fun hl => ?_, fun _ => rfl,
            fun p => onAppNameChanged_placeholder env p st⟩
    · exact perfOptionsOf_callGraph st.callGraphData st.eventTypeText
    · exact perfOptionsOf_event st.callGraphData st.eventTypeText
    · cases hl

/-- A concrete launch-mode state for the C6 witness. -/
def ui6 : RecordUI :=
  { ui0 with mode := RecordType.launchApplication,
             applicationNameText := "/bin/true",
             callGraphData := "dwarf",
             eventTypeText := "cycles" }

/-- Witness for C6 on a concrete launch-mode state. -/
theorem C6_record_invocation_witness :
    ui6.mode = RecordType.launchApplication
    ∧ ∃ call, (onStartRecordingButtonClicked env0 true ui6).2 = some call
        ∧ call.target = RecordTarget.launch (env0.tildeExpand ui6.applicationNameText)
            (env0.splitArgs ui6.applicationParametersText)
            (if ui6.workingDirectoryText = "" then ui6.workingDirectoryPlaceholder
             else ui6.workingDirectoryText)
        ∧ (containsPair call.options "--call-graph" ui6.callGraphData
            ↔ ui6.callGraphData ≠ "")
        ∧ (containsPair call.options "--event" ui6.eventTypeText
            ↔ ui6.eventTypeText ≠ "")
        ∧ call.outputPath = env0.toLocalFile ui6.outputFileText := by
  refine ⟨rfl, ?_⟩
  obtain ⟨call, h1, h2, h3, h4, h5, h6, h7⟩ := C6_record_invocation env0 ui6
  exact ⟨call, h1, h5 rfl, h2, h3, h4⟩

/-! ## Polling-loop claims (C1, C2, C3) -/

theorem pollStep_counters (st : PollState) (e : PollEvent) :
    pollCounters (pollStep st e)
      ≤ pollCounters st + (if isAttachSelect e then 1 else 0) := by
  cases e with
  | selectMode m =>
    cases m <;> simp only [pollStep, isAttachSelect, pollCounters] <;> split <;>
      simp <;> omega
  | resultArrives s =>
    by_cases h0 : st.inflight = 0
    · simp [pollStep, isAttachSelect, pollCounters, h0]
    · by_cases hm : st.mode = RecordType.attachToProcess <;>
        simp [pollStep, isAttachSelect, pollCounters, h0, hm, singleShotDelay] <;>
        omega
  | timerFires =>
    cases ht : st.timers with
    | nil => simp [pollStep, isAttachSelect, pollCounters, ht]
    | cons t rest =>
      simp [pollStep, isAttachSelect, pollCounters, ht]
      omega
  | staleResult =>
    simp only [pollStep, isAttachSelect, pollCounters]
    split <;> simp

theorem attachSelects_cons (e : PollEvent) (es : List PollEvent) :
    attachSelects (e :: es) = (if isAttachSelect e then 1 else 0) + attachSelects es := by
  simp only [attachSelects, List.filter_cons]
  cases isAttachSelect e <;> simp <;> omega

theorem pollFold_counters (events : List PollEvent) :
    ∀ st : PollState,
      pollCounters (events.foldl pollStep st) ≤ pollCounters st + attachSelects events := by
  induction events with
  | nil =>
    intro st
    simp [attachSelects]
  | cons e es ih =>
    intro st
    have h1 := ih (pollStep st e)
    have h2 := pollStep_counters st e
    have h3 := attachSelects_cons e es
    simp only [List.foldl_cons]
    omega

theorem attachSelects_take (events : List PollEvent) (n : Nat) :
    attachSelects (events.take n) ≤ attachSelects events := by
  induction events generalizing n with
  | nil => simp [attachSelects]
  | cons e es ih =>
    cases n with
    | zero => simp [attachSelects]
    | succ m =>
      simp only [List.take_succ_cons]
      rw [attachSelects_cons, attachSelects_cons]
      exact Nat.add_le_add_left (ih m) _

/-- C1 (amended): along every action sequence that switches into attach
mode at most once, at most one enumeration call is ever in flight (the
bound holds at every point in time, i.e. after every prefix). -/
theorem C1_single_inflight_amended (events : List PollEvent)
    (h : attachSelects events ≤ 1) (n : Nat) :
    (pollRun (events.take n)).inflight ≤ 1 := by
  have h1 := attachSelects_take events n
  have h2 := pollFold_counters (events.take n) pollInit
  have h3 : (pollRun (events.take n)).inflight
      ≤ pollCounters (pollRun (events.take n)) := Nat.le_add_right _ _
  have h4 : pollCounters pollInit = 0 := rfl
  unfold pollRun at h3 ⊢
  omega

/-- A concrete polling run staying within one attach-mode switch. -/
def pollTrace1 : List PollEvent :=
  [PollEvent.selectMode RecordType.attachToProcess,
   PollEvent.resultArrives [],
   PollEvent.timerFires]

/-- Witness for the amended C1 on a concrete timer-driven run. -/
theorem C1_single_inflight_amended_witness :
    attachSelects pollTrace1 ≤ 1 ∧ (pollRun (pollTrace1.take 3)).inflight ≤ 1 :=
  ⟨by decide, C1_single_inflight_amended pollTrace1 (by decide) 3⟩

/-- Switching to attach, away, and back while the first enumeration is
still running. -/
def overlapTrace : List PollEvent :=
  [PollEvent.selectMode RecordType.attachToProcess,
   PollEvent.selectMode RecordType.launchApplication,
   PollEvent.selectMode RecordType.attachToProcess]

/-- Counterexample to C1 as stated: re-entering attach mode while the
first enumeration call is outstanding issues a second one, so two
snapshot requests are in flight at once. -/
theorem C1_counterexample_two_inflight :
    (pollRun overlapTrace).inflight = 2
    ∧ ¬ (pollRun overlapTrace).inflight ≤ 1 := by
  exact ⟨rfl, by decide⟩

/-- C2: when the watched enumeration finishes, a new single-shot timer
(and exactly one) is armed - with the fixed 1000ms delay, measured from
this completion - exactly when the attach page is shown at that moment. -/
theorem C2_reschedule_on_completion (events : List PollEvent) (s : List ProcData)
    (h : 0 < (pollRun events).inflight) :
    (pollRun (events ++ [PollEvent.resultArrives s])).timers
      = (if (pollRun events).mode = RecordType.attachToProcess
         then [singleShotDelay] else []) ++ (pollRun events).timers
    ∧ singleShotDelay = 1000 := by
  refine ⟨?_, rfl⟩
  have h0 : (pollRun events).inflight ≠ 0 := by omega
  unfold pollRun at h0 ⊢
  rw [List.foldl_append]
  simp only [List.foldl_cons, List.foldl_nil]
  by_cases hm : (List.foldl pollStep pollInit events).mode = RecordType.attachToProcess <;>
    simp [pollStep, h0, hm]

/-- A run that enters attach mode and has one enumeration in flight. -/
def pollTrace2 : List PollEvent :=
  [PollEvent.selectMode RecordType.attachToProcess]

/-- Witness for C2: a completion on the attach page arms one 1000ms
single shot. -/
theorem C2_reschedule_on_completion_witness :
    0 < (pollRun pollTrace2).inflight
    ∧ ((pollRun (pollTrace2 ++ [PollEvent.resultArrives []])).timers
        = (if (pollRun pollTrace2).mode = RecordType.attachToProcess
           then [singleShotDelay] else []) ++ (pollRun pollTrace2).timers
       ∧ singleShotDelay = 1000) :=
  ⟨by decide, C2_reschedule_on_completion pollTrace2 [] (by decide)⟩

/-- C3: a snapshot arriving while the attach page is not shown schedules
no further poll; the result is applied to the model but with no visible
effect (what the user observes is unchanged). -/
theorem C3_result_while_hidden (events : List PollEvent) (s : List ProcData)
    (h1 : 0 < (pollRun events).inflight)
    (h2 : (pollRun events).mode ≠ RecordType.attachToProcess) :
    (pollRun (events ++ [PollEvent.resultArrives s])).timers = (pollRun events).timers
    ∧ visibleTable (pollRun (events ++ [PollEvent.resultArrives s]))
        = visibleTable (pollRun events)
    ∧ (pollRun (events ++ [PollEvent.resultArrives s])).table
        = mergeProcesses (pollRun events).table s := by
  have h0 : (pollRun events).inflight ≠ 0 := by omega
  unfold pollRun at h0 h2 ⊢
  rw [List.foldl_append]
  simp only [List.foldl_cons, List.foldl_nil]
  simp [pollStep, h0, h2, visibleTable]

/-- A run whose enumeration is still in flight after the user switched
back to the launch page. -/
def pollTrace3 : List PollEvent :=
  [PollEvent.selectMode RecordType.attachToProcess,
   PollEvent.selectMode RecordType.launchApplication]

/-- Witness for C3: a result arriving while the launch page is shown. -/
theorem C3_result_while_hidden_witness :
    (0 < (pollRun pollTrace3).inflight
     ∧ (pollRun pollTrace3).mode ≠ RecordType.attachToProcess)
    ∧ ((pollRun (pollTrace3 ++ [PollEvent.resultArrives [⟨7, "bash", "S"⟩]])).timers
         = (pollRun pollTrace3).timers
       ∧ visibleTable (pollRun (pollTrace3 ++ [PollEvent.resultArrives [⟨7, "bash", "S"⟩]]))
           = visibleTable (pollRun pollTrace3)
       ∧ (pollRun (pollTrace3 ++ [PollEvent.resultArrives [⟨7, "bash", "S"⟩]])).table
           = mergeProcesses (pollRun pollTrace3).table [⟨7, "bash", "S"⟩]) :=
  ⟨⟨by decide, by decide⟩,
   C3_result_while_hidden pollTrace3 [⟨7, "bash", "S"⟩] (by decide) (by decide)⟩
